import Mathlib

/-!
Verification development for the signbackend repository: a shallow embedding of
the document/recipient signing state machine (routes in
src/routes/documents.ts and the draft/submit routes) and of the PDF stamping
engine (src/services/pdfSigner.ts), together with theorems settling the
specification claims about them.

Modelling conventions:
given that all stored DECIMAL values travel through JavaScript Number()
coercion (they may arrive as numeric strings), a coordinate/size value is
modelled as Option Rat: some q is a value whose coercion yields the number q,
none is a value whose coercion yields NaN.  Timestamps and artifact paths are
modelled as abstract Nat identifiers.  The relational store's rows for one
document are gathered into a single DocState record; each route handler
becomes a function on DocState returning Option DocState (none models the
handler's early-return error path, which performs no writes) or, for submit,
a three-way outcome that records the partially written state when stamping
fails after the annotation rows were already replaced (the handler runs each
SQL statement without a surrounding transaction).
-/

namespace EasySign

/-- Result of JavaScript Number() coercion on a stored value that may arrive
as a numeric string: some q when coercion yields the number q, none when it
yields NaN (non-numeric input). -/
abbrev NumVal := Option ℚ

/-- NaN-propagating subtraction, modelling the JavaScript expression a - b
where either operand may be NaN. -/
def nsub (a b : NumVal) : NumVal :=
  match a, b with
  | some x, some y => some (x - y)
  | _, _ => none

/-- Per-recipient signing status of a document_recipients row; the source
stores these as the strings pending, draft, signed, sent_back_for_signing. -/
inductive RecStatus where
  | pending
  | draft
  | signed
  | sent_back_for_signing
deriving DecidableEq, Repr

/-- Document-wide lifecycle status; the source stores these as the strings
draft, sent_for_signing, sent_back_for_signing, waiting_confirmation,
completed. -/
inductive DocStatus where
  | draft
  | sent_for_signing
  | sent_back_for_signing
  | waiting_confirmation
  | completed
deriving DecidableEq, Repr

/-- A text_fields row (schema.sql): a text annotation owned by one
(document, recipient) pair.  Coordinates, sizes and the font size carry the
outcome of Number() coercion. -/
structure TextField where
  recipient_id : Nat
  page_number : Int
  x_coordinate : NumVal
  y_coordinate : NumVal
  width : NumVal
  height : NumVal
  font_size : NumVal
  text_content : String
  is_draft : Bool
deriving DecidableEq, Repr

/-- A signatures row (schema.sql): a signature placement owned by one
(document, recipient) pair, referencing a signature image by path. -/
structure Signature where
  recipient_id : Nat
  page_number : Int
  x_coordinate : NumVal
  y_coordinate : NumVal
  width : NumVal
  height : NumVal
  signature_image_path : String
  is_draft : Bool
deriving DecidableEq, Repr

/-- The loaded base PDF, abstracted to the list of its page heights (the
stamping code only uses pages.length and page.getSize().height). -/
structure Pdf where
  pages : List ℚ
deriving DecidableEq, Repr

/-- A signature image blob, characterized by whether pdf-lib embedPng and
embedJpg succeed on its bytes. -/
structure Image where
  pngOk : Bool
  jpgOk : Bool
deriving DecidableEq, Repr

/-- The blob store for signature images: maps an image path to its blob when
the file exists. -/
abbrev ImgStore := String → Option Image

/-- One drawing operation burned into the output artifact by signPDF
(page.drawText / page.drawImage). -/
inductive DrawCmd where
  | text (pageIdx : Nat) (content : String) (x y size : ℚ)
  | image (pageIdx : Nat) (path : String) (x y w h : ℚ)
deriving DecidableEq, Repr

/-- The error exits of signPDF (each is a thrown Error in the source). -/
inductive SignError where
  | originalNotFound
  | invalidTextField
  | signatureNotFound (path : String)
  | unsupportedImageFormat (path : String)
  | invalidSignature
deriving DecidableEq, Repr

/-- The in-range test of pdfSigner.ts: page_number > 0 and
page_number <= pages.length (1-based page references). -/
def pageInRange (pdf : Pdf) (p : Int) : Bool :=
  0 < p && p ≤ (pdf.pages.length : Int)

/-- Height of the referenced page, pages[page_number - 1].getSize().height. -/
def pageHeight (pdf : Pdf) (p : Int) : ℚ :=
  pdf.pages.getD (p - 1).toNat 0

/-- Processing of one text field inside signPDF: out-of-range pages are
silently skipped; in range, coordinates are coerced, the y origin is mapped
by pageHeight - y - height, and a NaN among x, y or font size is a thrown
error; otherwise the text is drawn at the mapped origin. -/
def stampTextField (pdf : Pdf) (tf : TextField) : Except SignError (List DrawCmd) :=
  if pageInRange pdf tf.page_number then
    let y := nsub (nsub (some (pageHeight pdf tf.page_number)) tf.y_coordinate) tf.height
    match tf.x_coordinate, y, tf.font_size with
    | some xv, some yv, some fv =>
        Except.ok [DrawCmd.text (tf.page_number - 1).toNat tf.text_content xv yv fv]
    | _, _, _ => Except.error SignError.invalidTextField
  else
    Except.ok []

/-- Processing of one signature inside signPDF: out-of-range pages are
silently skipped; in range, the referenced image must exist, must embed as
PNG or (fallback) as JPEG, and the coerced x, y, width, height must all be
numbers; the image is then drawn at the mapped origin. -/
def stampSignature (store : ImgStore) (pdf : Pdf) (sg : Signature) :
    Except SignError (List DrawCmd) :=
  if pageInRange pdf sg.page_number then
    match store sg.signature_image_path with
    | none => Except.error (SignError.signatureNotFound sg.signature_image_path)
    | some img =>
      if img.pngOk || img.jpgOk then
        let y := nsub (nsub (some (pageHeight pdf sg.page_number)) sg.y_coordinate) sg.height
        match sg.x_coordinate, y, sg.width, sg.height with
        | some xv, some yv, some wv, some hv =>
            Except.ok [DrawCmd.image (sg.page_number - 1).toNat sg.signature_image_path
              xv yv wv hv]
        | _, _, _, _ => Except.error SignError.invalidSignature
      else
        Except.error (SignError.unsupportedImageFormat sg.signature_image_path)
  else
    Except.ok []

/-- Sequential processing of a list of annotations; the first thrown error
aborts the whole run (nothing later is processed, nothing is written). -/
def stampAll {α : Type} (f : α → Except SignError (List DrawCmd)) :
    List α → Except SignError (List DrawCmd)
  | [] => Except.ok []
  | a :: rest =>
    match f a with
    | Except.error e => Except.error e
    | Except.ok cs =>
      match stampAll f rest with
      | Except.error e => Except.error e
      | Except.ok cs2 => Except.ok (cs ++ cs2)

/-- signPDF (src/services/pdfSigner.ts): loads the original (error when the
file is missing), stamps every text field, then every signature, and only
when every annotation processed without error saves the output artifact.
The ok value is the written artifact's drawing content; an error means the
function threw before fs.writeFileSync, so no output file exists. -/
def signPDF (originalExists : Bool) (store : ImgStore) (pdf : Pdf)
    (textFields : List TextField) (signatures : List Signature) :
    Except SignError (List DrawCmd) :=
  if originalExists then
    match stampAll (stampTextField pdf) textFields with
    | Except.error e => Except.error e
    | Except.ok ts =>
      match stampAll (stampSignature store pdf) signatures with
      | Except.error e => Except.error e
      | Except.ok ss => Except.ok (ts ++ ss)
  else
    Except.error SignError.originalNotFound

/-- A document_recipients row for the one document under consideration. -/
structure Assignment where
  recipient_id : Nat
  status : RecStatus
  due_date : Option Nat
  signed_at : Option Nat
  revision_note : Option String
deriving DecidableEq, Repr

/-- The store's state for one document: its documents row (owner, status,
signed_file_path), the loaded original artifact (existence flag and page
data), and the rows of document_recipients, text_fields and signatures that
reference it. -/
structure DocState where
  owner : Nat
  status : DocStatus
  original_ok : Bool
  pdf : Pdf
  signed_file_path : Option Nat
  recipients : List Assignment
  text_fields : List TextField
  signatures : List Signature
deriving DecidableEq, Repr

/-- Request payload for one text field (recipient and draft flag are
supplied by the route, not the payload). -/
structure TextFieldInput where
  page_number : Int
  x_coordinate : NumVal
  y_coordinate : NumVal
  width : NumVal
  height : NumVal
  font_size : NumVal
  text_content : String
deriving DecidableEq, Repr

/-- Request payload for one signature placement. -/
structure SignatureInput where
  page_number : Int
  x_coordinate : NumVal
  y_coordinate : NumVal
  width : NumVal
  height : NumVal
  signature_image_path : String
deriving DecidableEq, Repr

/-- Row built by the INSERT INTO text_fields statement: recipient_id is the
authenticated user, is_draft is TRUE on the draft route and FALSE on the
submit route. -/
def mkTextField (uid : Nat) (isDraft : Bool) (t : TextFieldInput) : TextField :=
  { recipient_id := uid
    page_number := t.page_number
    x_coordinate := t.x_coordinate
    y_coordinate := t.y_coordinate
    width := t.width
    height := t.height
    font_size := t.font_size
    text_content := t.text_content
    is_draft := isDraft }

/-- Row built by the INSERT INTO signatures statement. -/
def mkSignature (uid : Nat) (isDraft : Bool) (s : SignatureInput) : Signature :=
  { recipient_id := uid
    page_number := s.page_number
    x_coordinate := s.x_coordinate
    y_coordinate := s.y_coordinate
    width := s.width
    height := s.height
    signature_image_path := s.signature_image_path
    is_draft := isDraft }

/-- The rows inserted for a whole payload, in payload order (created_at
order, since rows are inserted one by one). -/
def insertTextFields (uid : Nat) (isDraft : Bool) (ts : List TextFieldInput) :
    List TextField :=
  ts.map (mkTextField uid isDraft)

/-- The signature rows inserted for a whole payload. -/
def insertSignatures (uid : Nat) (isDraft : Bool) (ss : List SignatureInput) :
    List Signature :=
  ss.map (mkSignature uid isDraft)

/-- The access check shared by the draft and submit routes: a
document_recipients row for (document, user) exists. -/
def isAssigned (uid : Nat) (l : List Assignment) : Bool :=
  l.any (fun a => a.recipient_id == uid)

/-- The draft route (POST /:documentId/draft): requires the caller to be an
assigned recipient; deletes the pair's draft-flagged annotations, inserts
the payload as draft rows, and sets the pair's status to draft.  The UPDATE
touches only the status column (signed_at and revision_note keep their
values). -/
def saveDraft (uid : Nat) (tfs : List TextFieldInput) (sgs : List SignatureInput)
    (st : DocState) : Option DocState :=
  if isAssigned uid st.recipients then
    some { st with
      text_fields :=
        st.text_fields.filter (fun tf => !(tf.recipient_id == uid && tf.is_draft)) ++
          insertTextFields uid true tfs
      signatures :=
        st.signatures.filter (fun sg => !(sg.recipient_id == uid && sg.is_draft)) ++
          insertSignatures uid true sgs
      recipients := st.recipients.map (fun a =>
        if a.recipient_id == uid then { a with status := RecStatus.draft } else a) }
  else
    none

/-- The annotation replacement performed at the start of the submit route:
DELETE of every text_fields and signatures row of the (document, user) pair
(draft and final alike, the statements carry no is_draft filter), then
insertion of the payload with is_draft = FALSE. -/
def replaceWithFinal (uid : Nat) (tfs : List TextFieldInput)
    (sgs : List SignatureInput) (st : DocState) : DocState :=
  { st with
    text_fields :=
      st.text_fields.filter (fun tf => !(tf.recipient_id == uid)) ++
        insertTextFields uid false tfs
    signatures :=
      st.signatures.filter (fun sg => !(sg.recipient_id == uid)) ++
        insertSignatures uid false sgs }

/-- The aggregation query SELECT * FROM text_fields WHERE document_id = $1
AND is_draft = FALSE feeding signPDF. -/
def finalTextFields (st : DocState) : List TextField :=
  st.text_fields.filter (fun tf => !tf.is_draft)

/-- The aggregation query over signatures feeding signPDF. -/
def finalSignatures (st : DocState) : List Signature :=
  st.signatures.filter (fun sg => !sg.is_draft)

/-- The UPDATE document_recipients SET status = signed,
signed_at = CURRENT_TIMESTAMP for the submitting user's pair. -/
def signRecipients (uid now : Nat) (l : List Assignment) : List Assignment :=
  l.map (fun a =>
    if a.recipient_id == uid then
      { a with status := RecStatus.signed, signed_at := some now }
    else a)

/-- The allComplete query of the submit route: SELECT COUNT(*) FROM
document_recipients WHERE document_id = $1 AND status IN (pending, draft). -/
def remainingCount (l : List Assignment) : Nat :=
  l.countP (fun a => a.status == RecStatus.pending || a.status == RecStatus.draft)

/-- Outcome of the submit route: denied is the early 404 (no write at all);
stampFailed is the 500 path where signPDF threw after the pair's annotation
rows were already replaced (each statement autocommits, there is no
transaction), so the partially updated state is recorded; ok is the success
path with the new artifact path id. -/
inductive SubmitOutcome where
  | denied
  | stampFailed (st : DocState) (e : SignError)
  | ok (st : DocState) (pathId : Nat)
deriving DecidableEq, Repr

/-- The submit route (POST /:documentId/submit): requires the caller to be
an assigned recipient; replaces the pair's annotations with the final
payload; runs signPDF on the aggregated final annotations of all
recipients; on success marks the pair signed with signed_at = now, recounts
the pairs still pending or draft, and updates the documents row with the
new signed_file_path and with status waiting_confirmation when that count
is zero, sent_for_signing otherwise. -/
def submit (uid now pathId : Nat) (store : ImgStore) (tfs : List TextFieldInput)
    (sgs : List SignatureInput) (st : DocState) : SubmitOutcome :=
  if isAssigned uid st.recipients then
    let st1 := replaceWithFinal uid tfs sgs st
    match signPDF st1.original_ok store st1.pdf (finalTextFields st1) (finalSignatures st1) with
    | Except.error e => SubmitOutcome.stampFailed st1 e
    | Except.ok _ =>
      let recs := signRecipients uid now st1.recipients
      SubmitOutcome.ok
        { st1 with
          recipients := recs
          status :=
            if remainingCount recs == 0 then DocStatus.waiting_confirmation
            else DocStatus.sent_for_signing
          signed_file_path := some pathId }
        pathId
  else
    SubmitOutcome.denied

/-- The upsert of one document_recipients row in the assign route: INSERT
with status pending, ON CONFLICT update of due_date and status only
(signed_at and revision_note keep their stored values). -/
def upsertAssignment (due : Option Nat) (l : List Assignment) (rid : Nat) :
    List Assignment :=
  if isAssigned rid l then
    l.map (fun a =>
      if a.recipient_id == rid then { a with due_date := due, status := RecStatus.pending }
      else a)
  else
    l ++ [{ recipient_id := rid, status := RecStatus.pending, due_date := due,
            signed_at := none, revision_note := none }]

/-- The assign route (POST /:id/assign): rejects an empty recipient list;
otherwise sets the documents row to sent_for_signing unconditionally (no
check of the current status) and upserts every listed recipient. -/
def assign (rids : List Nat) (due : Option Nat) (st : DocState) : Option DocState :=
  if rids.isEmpty then
    none
  else
    some { st with
      status := DocStatus.sent_for_signing
      recipients := rids.foldl (upsertAssignment due) st.recipients }

/-- JavaScript String.prototype.trim(), as called on the revision note by
the send-back route: strips leading and trailing whitespace. -/
def jsTrim (s : String) : String :=
  String.mk (((s.data.dropWhile Char.isWhitespace).reverse.dropWhile
    Char.isWhitespace).reverse)

/-- Tie-break of the signer query ORDER BY signed_at DESC LIMIT 1: keep the
later signed_at, the earlier row on ties. -/
def laterSigned (a b : Assignment) : Assignment :=
  if a.signed_at.getD 0 < b.signed_at.getD 0 then b else a

/-- The signer query of the send-back route: among the pairs with status
signed, the one with the latest signed_at; none when no pair is signed. -/
def pickSigner (l : List Assignment) : Option Assignment :=
  match l.filter (fun a => a.status == RecStatus.signed) with
  | [] => none
  | h :: t => some (t.foldl laterSigned h)

/-- The send-back route (POST /:id/send-back): rejects a missing or blank
note; requires the caller to own the document; rejects when no pair has
status signed; otherwise moves the picked signed pair to
sent_back_for_signing, clears its signed_at, stores the trimmed note, and
sets the documents row to sent_back_for_signing. -/
def sendBack (uid : Nat) (note : String) (st : DocState) : Option DocState :=
  if jsTrim note == "" then
    none
  else if st.owner == uid then
    match pickSigner st.recipients with
    | none => none
    | some signer =>
      some { st with
        status := DocStatus.sent_back_for_signing
        recipients := st.recipients.map (fun a =>
          if a.recipient_id == signer.recipient_id then
            { a with status := RecStatus.sent_back_for_signing, signed_at := none,
                     revision_note := some (jsTrim note) }
          else a) }
  else
    none

/-- The confirm route (POST /:id/confirm): requires only that the caller
owns the document, then sets the documents row to completed; the current
status is never read. -/
def confirm (uid : Nat) (st : DocState) : Option DocState :=
  if st.owner == uid then
    some { st with status := DocStatus.completed }
  else
    none

/-- The state recorded by a submit outcome, when any write happened. -/
def outcomeState : SubmitOutcome → Option DocState
  | SubmitOutcome.denied => none
  | SubmitOutcome.stampFailed st _ => some st
  | SubmitOutcome.ok st _ => some st

theorem replaceWithFinal_recipients (uid : Nat) (tfs : List TextFieldInput)
    (sgs : List SignatureInput) (st : DocState) :
    (replaceWithFinal uid tfs sgs st).recipients = st.recipients := rfl

theorem replaceWithFinal_status (uid : Nat) (tfs : List TextFieldInput)
    (sgs : List SignatureInput) (st : DocState) :
    (replaceWithFinal uid tfs sgs st).status = st.status := rfl

theorem replaceWithFinal_signed_file_path (uid : Nat) (tfs : List TextFieldInput)
    (sgs : List SignatureInput) (st : DocState) :
    (replaceWithFinal uid tfs sgs st).signed_file_path = st.signed_file_path := rfl

/-- Characterization of the success path of submit: the caller was assigned,
the returned path is the requested one, and the final state is the
annotation-replaced state with the pair marked signed, the recomputed
document status, and the new artifact path. -/
theorem submit_ok_spec (uid now pathId : Nat) (store : ImgStore)
    (tfs : List TextFieldInput) (sgs : List SignatureInput) (st st' : DocState) (p : Nat)
    (h : submit uid now pathId store tfs sgs st = SubmitOutcome.ok st' p) :
    isAssigned uid st.recipients = true ∧ p = pathId ∧
    st' = { replaceWithFinal uid tfs sgs st with
            recipients := signRecipients uid now st.recipients
            status :=
              if remainingCount (signRecipients uid now st.recipients) == 0
              then DocStatus.waiting_confirmation else DocStatus.sent_for_signing
            signed_file_path := some pathId } := by
  simp only [submit] at h
  split at h
  case isTrue hg =>
    split at h
    case h_1 e heq => exact SubmitOutcome.noConfusion h
    case h_2 cs heq =>
      injection h with h1 h2
      exact ⟨hg, h2.symm, h1.symm⟩
  case isFalse hg => exact SubmitOutcome.noConfusion h

/-- When some element of the list makes the per-annotation step throw, the
whole sequential stamping run cannot return ok. -/
theorem stampAll_not_ok {α : Type} (f : α → Except SignError (List DrawCmd))
    (l : List α) (x : α) (hx : x ∈ l) (hbad : ∀ cs, f x ≠ Except.ok cs) :
    ∀ cs, stampAll f l ≠ Except.ok cs := by
  induction l with
  | nil => cases hx
  | cons a rest ih =>
    intro cs hcs
    unfold stampAll at hcs
    cases hfa : f a with
    | error e =>
      rw [hfa] at hcs
      exact Except.noConfusion hcs
    | ok cs1 =>
      rw [hfa] at hcs
      cases hx with
      | head => exact hbad cs1 hfa
      | tail _ hx2 =>
        cases hrest : stampAll f rest with
        | error e => rw [hrest] at hcs; exact Except.noConfusion hcs
        | ok cs2 => exact ih hx2 cs2 hrest

/-- A signature whose page is in range but whose image embeds as neither PNG
nor JPEG makes its stamping step throw. -/
theorem stampSignature_bad_image (store : ImgStore) (pdf : Pdf) (sg : Signature)
    (img : Image) (hrange : pageInRange pdf sg.page_number = true)
    (himg : store sg.signature_image_path = some img)
    (hpng : img.pngOk = false) (hjpg : img.jpgOk = false) :
    stampSignature store pdf sg =
      Except.error (SignError.unsupportedImageFormat sg.signature_image_path) := by
  unfold stampSignature
  rw [himg]
  simp [hrange, hpng, hjpg]

/-- The whole signPDF run cannot return ok (no artifact is written) when
some in-range signature references an image embeddable in neither format. -/
theorem signPDF_not_ok_of_bad_image (origOk : Bool) (store : ImgStore) (pdf : Pdf)
    (tfs : List TextField) (sgs : List Signature) (sg : Signature) (img : Image)
    (hmem : sg ∈ sgs) (hrange : pageInRange pdf sg.page_number = true)
    (himg : store sg.signature_image_path = some img)
    (hpng : img.pngOk = false) (hjpg : img.jpgOk = false) :
    ∀ cs, signPDF origOk store pdf tfs sgs ≠ Except.ok cs := by
  intro cs hcs
  unfold signPDF at hcs
  cases origOk with
  | false => exact Except.noConfusion hcs
  | true =>
    simp only [if_true] at hcs
    cases htf : stampAll (stampTextField pdf) tfs with
    | error e => rw [htf] at hcs; exact Except.noConfusion hcs
    | ok ts =>
      rw [htf] at hcs
      cases hsg : stampAll (stampSignature store pdf) sgs with
      | error e => rw [hsg] at hcs; exact Except.noConfusion hcs
      | ok ss =>
        refine stampAll_not_ok (stampSignature store pdf) sgs sg hmem ?_ ss hsg
        intro cs2 hc
        rw [stampSignature_bad_image store pdf sg img hrange himg hpng hjpg] at hc
        exact Except.noConfusion hc

/-- A text field whose page is in range but that has a non-numeric
coordinate, height or font size after coercion makes its stamping step
throw rather than being skipped. -/
theorem stampTextField_bad (pdf : Pdf) (tf : TextField)
    (hrange : pageInRange pdf tf.page_number = true)
    (hbad : tf.x_coordinate = none ∨ tf.y_coordinate = none ∨
            tf.height = none ∨ tf.font_size = none) :
    stampTextField pdf tf = Except.error SignError.invalidTextField := by
  unfold stampTextField
  rw [if_pos hrange]
  rcases hbad with hb | hb | hb | hb <;>
    rcases hx : tf.x_coordinate with _ | xv <;>
    rcases hy : tf.y_coordinate with _ | yv <;>
    rcases hh : tf.height with _ | hv <;>
    rcases hf : tf.font_size with _ | fv <;>
    simp_all [nsub]

/-- The whole signPDF run cannot return ok when some in-range text field has
a non-numeric coordinate, height or font size after coercion. -/
theorem signPDF_not_ok_of_bad_text (origOk : Bool) (store : ImgStore) (pdf : Pdf)
    (tfs : List TextField) (sgs : List Signature) (tf : TextField)
    (hmem : tf ∈ tfs) (hrange : pageInRange pdf tf.page_number = true)
    (hbad : tf.x_coordinate = none ∨ tf.y_coordinate = none ∨
            tf.height = none ∨ tf.font_size = none) :
    ∀ cs, signPDF origOk store pdf tfs sgs ≠ Except.ok cs := by
  have hstep : stampTextField pdf tf = Except.error SignError.invalidTextField :=
    stampTextField_bad pdf tf hrange hbad
  intro cs hcs
  unfold signPDF at hcs
  cases origOk with
  | false => exact Except.noConfusion hcs
  | true =>
    simp only [if_true] at hcs
    cases htf : stampAll (stampTextField pdf) tfs with
    | error e => rw [htf] at hcs; exact Except.noConfusion hcs
    | ok ts =>
      refine stampAll_not_ok (stampTextField pdf) tfs tf hmem ?_ ts htf
      intro cs2 hc
      rw [hstep] at hc
      exact Except.noConfusion hc

/-- Image store with no files, usable for runs whose final annotation set
contains no signatures. -/
def storeEmpty : ImgStore := fun _ => none

/-- Two-recipient document in which recipient 1 was sent back for revision
and recipient 2 is still pending. -/
def stC1 : DocState :=
  { owner := 0, status := DocStatus.sent_for_signing, original_ok := true,
    pdf := { pages := [100] }, signed_file_path := none,
    recipients :=
      [ { recipient_id := 1, status := RecStatus.sent_back_for_signing, due_date := none,
          signed_at := none, revision_note := some "redo" },
        { recipient_id := 2, status := RecStatus.pending, due_date := none,
          signed_at := none, revision_note := none } ],
    text_fields := [], signatures := [] }

/-- C1 counterexample: the claim requires that a document with a
sent-back pair must not transition to waiting_confirmation when another
recipient submits, yet in stC1 (recipient 1 sent back, recipient 2 pending)
recipient 2's successful submission moves the document to
waiting_confirmation, because the completion count only treats pending and
draft pairs as incomplete. -/
theorem C1_sent_back_counts_complete_cex :
    (stC1.recipients.any (fun a => a.status == RecStatus.sent_back_for_signing)) = true ∧
    (outcomeState (submit 2 7 3 storeEmpty [] [] stC1)).map DocState.status =
      some DocStatus.waiting_confirmation := ⟨rfl, rfl⟩

/-- C1 amended: on every successful recipient submission the document
transitions to waiting_confirmation exactly when, after the submitter's pair
is marked signed, no pair of the document has status pending or draft; a
pair in sent_back_for_signing counts as complete, and otherwise the
document stays sent_for_signing. -/
theorem C1_submit_next_status (uid now pathId : Nat) (store : ImgStore)
    (tfs : List TextFieldInput) (sgs : List SignatureInput) (st st' : DocState) (p : Nat)
    (h : submit uid now pathId store tfs sgs st = SubmitOutcome.ok st' p) :
    (st'.status = DocStatus.waiting_confirmation ↔ remainingCount st'.recipients = 0) ∧
    (st'.status ≠ DocStatus.waiting_confirmation →
      st'.status = DocStatus.sent_for_signing) := by
  rcases submit_ok_spec uid now pathId store tfs sgs st st' p h with ⟨-, -, rfl⟩
  by_cases hc : remainingCount (signRecipients uid now st.recipients) = 0 <;>
    constructor <;> simp_all

/-- Witness for C1_submit_next_status at a concrete input: a two-recipient
document where one pair is still pending after the submission. -/
theorem C1_submit_next_status_witness :
    ∃ st' p, submit 2 7 3 storeEmpty [] [] stC1 = SubmitOutcome.ok st' p ∧
      (st'.status = DocStatus.waiting_confirmation ↔
        remainingCount st'.recipients = 0) := by
  refine ⟨_, _, rfl, ?_⟩
  exact (C1_submit_next_status 2 7 3 storeEmpty [] [] stC1 _ _ rfl).1

/-- Two-recipient document with both pairs still pending and no produced
artifact recorded yet. -/
def stC2 : DocState :=
  { owner := 0, status := DocStatus.sent_for_signing, original_ok := true,
    pdf := { pages := [100] }, signed_file_path := none,
    recipients :=
      [ { recipient_id := 1, status := RecStatus.pending, due_date := none,
          signed_at := none, revision_note := none },
        { recipient_id := 2, status := RecStatus.pending, due_date := none,
          signed_at := none, revision_note := none } ],
    text_fields := [], signatures := [] }

/-- C2 counterexample: recipient 1's submission leaves the document in
sent_for_signing (recipient 2 is still pending), yet the signed artifact
reference is set, because the submit route writes signed_file_path
unconditionally on every submission. -/
theorem C2_artifact_set_early_cex :
    (outcomeState (submit 1 7 3 storeEmpty [] [] stC2)).map DocState.status =
      some DocStatus.sent_for_signing ∧
    (outcomeState (submit 1 7 3 storeEmpty [] [] stC2)).bind DocState.signed_file_path =
      some 3 ∧
    stC2.signed_file_path = none := ⟨rfl, rfl, rfl⟩

/-- C2 amended: the signed artifact reference is set by every successful
submission, to the freshly produced artifact path, regardless of whether
every recipient has completed signing or the document stays
sent_for_signing. -/
theorem C2_artifact_after_submit (uid now pathId : Nat) (store : ImgStore)
    (tfs : List TextFieldInput) (sgs : List SignatureInput) (st st' : DocState) (p : Nat)
    (h : submit uid now pathId store tfs sgs st = SubmitOutcome.ok st' p) :
    st'.signed_file_path = some pathId := by
  rcases submit_ok_spec uid now pathId store tfs sgs st st' p h with ⟨-, -, rfl⟩
  rfl

/-- Witness for C2_artifact_after_submit at a concrete input. -/
theorem C2_artifact_after_submit_witness :
    ∃ st' p, submit 1 7 3 storeEmpty [] [] stC2 = SubmitOutcome.ok st' p ∧
      st'.signed_file_path = some 3 := by
  refine ⟨_, _, rfl, ?_⟩
  exact C2_artifact_after_submit 1 7 3 storeEmpty [] [] stC2 _ _ rfl

/-- Document still in its initial draft status, owned by user 7. -/
def stC3 : DocState :=
  { owner := 7, status := DocStatus.draft, original_ok := true,
    pdf := { pages := [100] }, signed_file_path := none,
    recipients := [], text_fields := [], signatures := [] }

/-- C3 counterexample: confirm by the owner of a document whose status is
draft (never waiting_confirmation) still produces completed, because the
confirm route checks only ownership and never reads the current status. -/
theorem C3_confirm_unguarded_cex :
    stC3.status = DocStatus.draft ∧
    (confirm 7 stC3).map DocState.status = some DocStatus.completed := ⟨rfl, rfl⟩

/-- C3 amended: confirm by the document owner always sets the document
status to completed, from any current status (the route guards only on
ownership), so completed is reachable without a prior waiting_confirmation. -/
theorem C3_confirm_any_status (uid : Nat) (st : DocState) (h : st.owner = uid) :
    confirm uid st = some { st with status := DocStatus.completed } := by
  simp [confirm, h]

/-- Witness for C3_confirm_any_status at a concrete input. -/
theorem C3_confirm_any_status_witness :
    confirm 7 stC3 = some { stC3 with status := DocStatus.completed } :=
  C3_confirm_any_status 7 stC3 rfl

/-- Completed document with one signed pair, owned by user 0. -/
def stC4 : DocState :=
  { owner := 0, status := DocStatus.completed, original_ok := true,
    pdf := { pages := [100] }, signed_file_path := some 9,
    recipients :=
      [ { recipient_id := 1, status := RecStatus.signed, due_date := none,
          signed_at := some 4, revision_note := none } ],
    text_fields := [], signatures := [] }

/-- C4 counterexample: assigning a recipient to a completed document
succeeds and moves its status to sent_for_signing, so completed is not a
terminal state. -/
theorem C4_completed_not_terminal_cex :
    stC4.status = DocStatus.completed ∧
    (assign [5] none stC4).map DocState.status = some DocStatus.sent_for_signing ∧
    DocStatus.sent_for_signing ≠ DocStatus.completed := ⟨rfl, rfl, by decide⟩

/-- C4 amended: confirm keeps a completed document completed, but assign and
sendBack carry no completed-status guard: a successful assign moves any
document (completed included) to sent_for_signing and a successful sendBack
moves it to sent_back_for_signing. -/
theorem C4_completed_escape (uid : Nat) (st : DocState)
    (h : st.status = DocStatus.completed) :
    (∀ st1, confirm uid st = some st1 → st1.status = DocStatus.completed) ∧
    (∀ rids due st1, assign rids due st = some st1 →
      st1.status = DocStatus.sent_for_signing) ∧
    (∀ note st1, sendBack uid note st = some st1 →
      st1.status = DocStatus.sent_back_for_signing) := by
  refine ⟨?_, ?_, ?_⟩
  · intro st1 hc
    unfold confirm at hc
    split at hc
    · injection hc with hc
      subst hc
      rfl
    · exact Option.noConfusion hc
  · intro rids due st1 ha
    unfold assign at ha
    split at ha
    · exact Option.noConfusion ha
    · injection ha with ha
      subst ha
      rfl
  · intro note st1 hs
    unfold sendBack at hs
    split at hs
    · exact Option.noConfusion hs
    · split at hs
      · split at hs
        · exact Option.noConfusion hs
        · injection hs with hs
          subst hs
          rfl
      · exact Option.noConfusion hs

/-- Witness for C4_completed_escape at a concrete input: assigning recipient
5 to the completed document stC4. -/
theorem C4_completed_escape_witness :
    ∃ st1, assign [5] none stC4 = some st1 ∧
      st1.status = DocStatus.sent_for_signing := by
  refine ⟨_, rfl, ?_⟩
  exact (C4_completed_escape 0 stC4 rfl).2.1 [5] none _ rfl

/-- C5: a successful submission replaces the pair's contribution to the
aggregated final annotation set wholesale: after submit by uid with payload
tfs/sgs, the uid-owned part of the final annotation set fed to stamping is
exactly the inserted payload rows, whatever final or draft rows the pair had
before (in particular after a draft save, an earlier submission and a
send-back). -/
theorem C5_resubmission_replaces (uid now pathId : Nat) (store : ImgStore)
    (tfs : List TextFieldInput) (sgs : List SignatureInput) (st st' : DocState) (p : Nat)
    (h : submit uid now pathId store tfs sgs st = SubmitOutcome.ok st' p) :
    (finalTextFields st').filter (fun tf => tf.recipient_id == uid) =
      insertTextFields uid false tfs ∧
    (finalSignatures st').filter (fun sg => sg.recipient_id == uid) =
      insertSignatures uid false sgs := by
  rcases submit_ok_spec uid now pathId store tfs sgs st st' p h with ⟨-, -, rfl⟩
  constructor
  · show (((st.text_fields.filter (fun tf => !(tf.recipient_id == uid)) ++
        insertTextFields uid false tfs).filter (fun tf => !tf.is_draft)).filter
        (fun tf => tf.recipient_id == uid)) = insertTextFields uid false tfs
    rw [List.filter_append, List.filter_append]
    have h1 : ((st.text_fields.filter (fun tf => !(tf.recipient_id == uid))).filter
        (fun tf => !tf.is_draft)).filter (fun tf => tf.recipient_id == uid) = [] := by
      rw [List.filter_eq_nil_iff]
      intro a ha
      have h2 := (List.mem_filter.mp (List.mem_filter.mp ha).1).2
      simp_all
    have h3 : ((insertTextFields uid false tfs).filter (fun tf => !tf.is_draft)).filter
        (fun tf => tf.recipient_id == uid) = insertTextFields uid false tfs := by
      have h4 : (insertTextFields uid false tfs).filter (fun tf => !tf.is_draft) =
          insertTextFields uid false tfs := by
        rw [List.filter_eq_self]
        intro a ha
        rcases List.mem_map.mp ha with ⟨t, -, rfl⟩
        rfl
      rw [h4, List.filter_eq_self]
      intro a ha
      rcases List.mem_map.mp ha with ⟨t, -, rfl⟩
      simp [mkTextField]
    rw [h1, h3, List.nil_append]
  · show (((st.signatures.filter (fun sg => !(sg.recipient_id == uid)) ++
        insertSignatures uid false sgs).filter (fun sg => !sg.is_draft)).filter
        (fun sg => sg.recipient_id == uid)) = insertSignatures uid false sgs
    rw [List.filter_append, List.filter_append]
    have h1 : ((st.signatures.filter (fun sg => !(sg.recipient_id == uid))).filter
        (fun sg => !sg.is_draft)).filter (fun sg => sg.recipient_id == uid) = [] := by
      rw [List.filter_eq_nil_iff]
      intro a ha
      have h2 := (List.mem_filter.mp (List.mem_filter.mp ha).1).2
      simp_all
    have h3 : ((insertSignatures uid false sgs).filter (fun sg => !sg.is_draft)).filter
        (fun sg => sg.recipient_id == uid) = insertSignatures uid false sgs := by
      have h4 : (insertSignatures uid false sgs).filter (fun sg => !sg.is_draft) =
          insertSignatures uid false sgs := by
        rw [List.filter_eq_self]
        intro a ha
        rcases List.mem_map.mp ha with ⟨t, -, rfl⟩
        rfl
      rw [h4, List.filter_eq_self]
      intro a ha
      rcases List.mem_map.mp ha with ⟨t, -, rfl⟩
      simp [mkSignature]
    rw [h1, h3, List.nil_append]

/-- One-recipient document for the C5 round trip, before any annotation. -/
def stR0 : DocState :=
  { owner := 0, status := DocStatus.sent_for_signing, original_ok := true,
    pdf := { pages := [200] }, signed_file_path := none,
    recipients :=
      [ { recipient_id := 1, status := RecStatus.pending, due_date := none,
          signed_at := none, revision_note := none } ],
    text_fields := [], signatures := [] }

/-- Round-trip payload A. -/
def tfA : TextFieldInput :=
  { page_number := 1, x_coordinate := some 10, y_coordinate := some 20,
    width := some 30, height := some 5, font_size := some 12, text_content := "A" }

/-- Round-trip payload B. -/
def tfB : TextFieldInput :=
  { page_number := 1, x_coordinate := some 40, y_coordinate := some 50,
    width := some 30, height := some 5, font_size := some 12, text_content := "B" }

/-- State after recipient 1 saves draft A. -/
def stR1 : DocState := (saveDraft 1 [tfA] [] stR0).getD stR0

/-- State after recipient 1 submits (finalizes) A. -/
def stR2 : DocState := (outcomeState (submit 1 3 1 storeEmpty [tfA] [] stR1)).getD stR1

/-- State after the owner sends the document back with a note. -/
def stR3 : DocState := (sendBack 0 "please fix" stR2).getD stR2

/-- Witness for C5_resubmission_replaces on the claim's round trip: after
save draft A, finalize A, send back, finalizing B leaves exactly B's rows as
the pair's contribution to the final set. -/
theorem C5_resubmission_replaces_witness :
    ∃ st' p, submit 1 9 4 storeEmpty [tfB] [] stR3 = SubmitOutcome.ok st' p ∧
      (finalTextFields st').filter (fun tf => tf.recipient_id == 1) =
        insertTextFields 1 false [tfB] := by
  refine ⟨_, _, rfl, ?_⟩
  exact (C5_resubmission_replaces 1 9 4 storeEmpty [tfB] [] stR3 _ _ rfl).1

theorem laterSigned_cases (a b : Assignment) :
    laterSigned a b = a ∨ laterSigned a b = b := by
  unfold laterSigned
  split
  · exact Or.inr rfl
  · exact Or.inl rfl

theorem foldl_laterSigned_mem (h : Assignment) (t : List Assignment) :
    t.foldl laterSigned h ∈ h :: t := by
  induction t generalizing h with
  | nil => exact List.mem_singleton.mpr rfl
  | cons b t ih =>
    rw [List.foldl_cons]
    rcases List.mem_cons.mp (ih (laterSigned h b)) with h1 | h1
    · rcases laterSigned_cases h b with h2 | h2
      · rw [h1, h2]
        exact List.mem_cons_self _ _
      · rw [h1, h2]
        exact List.mem_cons.mpr (Or.inr (List.mem_cons_self _ _))
    · exact List.mem_cons.mpr (Or.inr (List.mem_cons.mpr (Or.inr h1)))

/-- The signer picked by the send-back query is one of the document's
assignments and currently has status signed. -/
theorem pickSigner_mem (l : List Assignment) (a : Assignment)
    (h : pickSigner l = some a) : a ∈ l ∧ a.status = RecStatus.signed := by
  unfold pickSigner at h
  cases hf : l.filter (fun x => x.status == RecStatus.signed) with
  | nil =>
    rw [hf] at h
    exact Option.noConfusion h
  | cons x t =>
    rw [hf] at h
    injection h with h
    subst h
    have hm : t.foldl laterSigned x ∈ l.filter (fun x => x.status == RecStatus.signed) := by
      rw [hf]
      exact foldl_laterSigned_mem x t
    have hmem := List.mem_filter.mp hm
    exact ⟨hmem.1, by simpa using hmem.2⟩

/-- When no assignment is signed, the send-back signer query is empty. -/
theorem pickSigner_eq_none (l : List Assignment)
    (h : ∀ a ∈ l, a.status ≠ RecStatus.signed) : pickSigner l = none := by
  unfold pickSigner
  have hf : l.filter (fun x => x.status == RecStatus.signed) = [] := by
    rw [List.filter_eq_nil_iff]
    intro a ha
    simpa using h a ha
  rw [hf]

/-- C6: sendBack is rejected (without any write) when the note is blank
after trimming or when no assignment of the document has status signed;
when it succeeds, some currently signed pair is moved to
sent_back_for_signing with signed_at cleared and the trimmed note stored. -/
theorem C6_sendBack_guards (uid : Nat) (note : String) (st : DocState) :
    (jsTrim note = "" → sendBack uid note st = none) ∧
    ((∀ a ∈ st.recipients, a.status ≠ RecStatus.signed) → sendBack uid note st = none) ∧
    (∀ st', sendBack uid note st = some st' →
      ∃ a ∈ st.recipients, a.status = RecStatus.signed ∧
        ∃ b ∈ st'.recipients, b.recipient_id = a.recipient_id ∧
          b.status = RecStatus.sent_back_for_signing ∧ b.signed_at = none ∧
          b.revision_note = some (jsTrim note)) := by
  refine ⟨?_, ?_, ?_⟩
  · intro ht
    unfold sendBack
    rw [if_pos (beq_iff_eq.mpr ht)]
  · intro hns
    unfold sendBack
    split
    · rfl
    · split
      · rw [pickSigner_eq_none st.recipients hns]
      · rfl
  · intro st' hs
    unfold sendBack at hs
    split at hs
    · exact Option.noConfusion hs
    · split at hs
      · cases hp : pickSigner st.recipients with
        | none =>
          rw [hp] at hs
          exact Option.noConfusion hs
        | some signer =>
          rw [hp] at hs
          injection hs with hs
          subst hs
          obtain ⟨hmem, hsig⟩ := pickSigner_mem st.recipients signer hp
          refine ⟨signer, hmem, hsig,
            { signer with status := RecStatus.sent_back_for_signing, signed_at := none,
                          revision_note := some (jsTrim note) }, ?_, rfl, rfl, rfl, rfl⟩
          have hfn : (fun a => if a.recipient_id == signer.recipient_id then
              { a with status := RecStatus.sent_back_for_signing, signed_at := none,
                       revision_note := some (jsTrim note) } else a) signer =
              { signer with status := RecStatus.sent_back_for_signing, signed_at := none,
                            revision_note := some (jsTrim note) } := by
            simp
          rw [← hfn]
          exact List.mem_map_of_mem _ hmem
      · exact Option.noConfusion hs

/-- Document waiting for confirmation with one signed pair, for the C6
witness. -/
def stC6 : DocState :=
  { owner := 0, status := DocStatus.waiting_confirmation, original_ok := true,
    pdf := { pages := [100] }, signed_file_path := some 2,
    recipients :=
      [ { recipient_id := 1, status := RecStatus.signed, due_date := none,
          signed_at := some 4, revision_note := none } ],
    text_fields := [], signatures := [] }

/-- Witness for C6_sendBack_guards at concrete inputs: a blank note is
rejected, and a successful send-back with note "fix" moves the signed pair
to sent_back_for_signing with signed_at cleared and the note stored. -/
theorem C6_sendBack_guards_witness :
    sendBack 0 " " stC6 = none ∧
    (∃ st', sendBack 0 "fix" stC6 = some st' ∧
      ∃ a ∈ stC6.recipients, a.status = RecStatus.signed ∧
        ∃ b ∈ st'.recipients, b.recipient_id = a.recipient_id ∧
          b.status = RecStatus.sent_back_for_signing ∧ b.signed_at = none ∧
          b.revision_note = some (jsTrim "fix")) := by
  constructor
  · exact (C6_sendBack_guards 0 " " stC6).1 (by decide)
  · refine ⟨_, rfl, ?_⟩
    exact (C6_sendBack_guards 0 "fix" stC6).2.2 _ rfl

/-- Document with one signed pair carrying a signed_at timestamp, for the
C9 counterexample. -/
def stC9 : DocState :=
  { owner := 0, status := DocStatus.waiting_confirmation, original_ok := true,
    pdf := { pages := [100] }, signed_file_path := some 2,
    recipients :=
      [ { recipient_id := 1, status := RecStatus.signed, due_date := none,
          signed_at := some 5, revision_note := none } ],
    text_fields := [], signatures := [] }

/-- C9 counterexample: when the signed recipient 1 saves a new draft, the
pair's status moves to draft but signed_at keeps its value (the draft
route's UPDATE touches only the status column), so signed_at is non-null
while the status is not signed. -/
theorem C9_signed_at_stale_cex :
    (saveDraft 1 [] [] stC9).map
        (fun s => s.recipients.map (fun a => (a.status, a.signed_at))) =
      some [(RecStatus.draft, some 5)] ∧
    RecStatus.draft ≠ RecStatus.signed := ⟨rfl, by decide⟩

/-- C9 amended: a successful submission marks the submitting pair signed
with signed_at set to the submission time, but a draft save only rewrites
the pair's status to draft and leaves signed_at untouched, so a pair that
was signed keeps its stale signed_at and the claimed iff invariant fails. -/
theorem C9_signed_at_not_invariant (uid : Nat) (st : DocState) :
    (∀ now pathId store tfs sgs st' p,
      submit uid now pathId store tfs sgs st = SubmitOutcome.ok st' p →
      ∀ a ∈ st'.recipients, a.recipient_id = uid →
        a.status = RecStatus.signed ∧ a.signed_at = some now) ∧
    (∀ tfs sgs st', saveDraft uid tfs sgs st = some st' →
      st'.recipients = st.recipients.map (fun a =>
        if a.recipient_id == uid then { a with status := RecStatus.draft } else a)) := by
  constructor
  · intro now pathId store tfs sgs st' p h a ha hrid
    rcases submit_ok_spec uid now pathId store tfs sgs st st' p h with ⟨-, -, rfl⟩
    have ha2 : a ∈ signRecipients uid now st.recipients := ha
    rcases List.mem_map.mp ha2 with ⟨b, -, rfl⟩
    by_cases hb : b.recipient_id == uid
    · rw [if_pos hb]
      exact ⟨rfl, rfl⟩
    · rw [if_neg hb] at hrid
      exact absurd (beq_iff_eq.mpr hrid) hb
  · intro tfs sgs st' h
    unfold saveDraft at h
    split at h
    · injection h with h
      subst h
      rfl
    · exact Option.noConfusion h

/-- Witness for C9_signed_at_not_invariant at a concrete input: recipient 1 of
stC9 saves a draft; the resulting assignment list is the status-only
rewrite, which keeps the stale signed_at. -/
theorem C9_signed_at_not_invariant_witness :
    ∃ st', saveDraft 1 [] [] stC9 = some st' ∧
      st'.recipients = stC9.recipients.map (fun a =>
        if a.recipient_id == 1 then { a with status := RecStatus.draft } else a) := by
  refine ⟨_, rfl, ?_⟩
  exact (C9_signed_at_not_invariant 1 stC9).2 [] [] _ rfl

/-- C10: after a successful submission no draft-flagged annotation remains
for the submitting pair: the route deleted every annotation row of the pair
(draft and final alike) and inserted only final-flagged rows. -/
theorem C10_no_draft_after_submit (uid now pathId : Nat) (store : ImgStore)
    (tfs : List TextFieldInput) (sgs : List SignatureInput) (st st' : DocState) (p : Nat)
    (h : submit uid now pathId store tfs sgs st = SubmitOutcome.ok st' p) :
    st'.text_fields.filter (fun tf => tf.recipient_id == uid && tf.is_draft) = [] ∧
    st'.signatures.filter (fun sg => sg.recipient_id == uid && sg.is_draft) = [] := by
  rcases submit_ok_spec uid now pathId store tfs sgs st st' p h with ⟨-, -, rfl⟩
  constructor
  · show ((st.text_fields.filter (fun tf => !(tf.recipient_id == uid)) ++
        insertTextFields uid false tfs).filter
        (fun tf => tf.recipient_id == uid && tf.is_draft)) = []
    rw [List.filter_append]
    have h1 : (st.text_fields.filter (fun tf => !(tf.recipient_id == uid))).filter
        (fun tf => tf.recipient_id == uid && tf.is_draft) = [] := by
      rw [List.filter_eq_nil_iff]
      intro a ha
      have h2 := (List.mem_filter.mp ha).2
      simp_all
    have h3 : (insertTextFields uid false tfs).filter
        (fun tf => tf.recipient_id == uid && tf.is_draft) = [] := by
      rw [List.filter_eq_nil_iff]
      intro a ha
      rcases List.mem_map.mp ha with ⟨t, -, rfl⟩
      simp [mkTextField]
    rw [h1, h3]
    rfl
  · show ((st.signatures.filter (fun sg => !(sg.recipient_id == uid)) ++
        insertSignatures uid false sgs).filter
        (fun sg => sg.recipient_id == uid && sg.is_draft)) = []
    rw [List.filter_append]
    have h1 : (st.signatures.filter (fun sg => !(sg.recipient_id == uid))).filter
        (fun sg => sg.recipient_id == uid && sg.is_draft) = [] := by
      rw [List.filter_eq_nil_iff]
      intro a ha
      have h2 := (List.mem_filter.mp ha).2
      simp_all
    have h3 : (insertSignatures uid false sgs).filter
        (fun sg => sg.recipient_id == uid && sg.is_draft) = [] := by
      rw [List.filter_eq_nil_iff]
      intro a ha
      rcases List.mem_map.mp ha with ⟨t, -, rfl⟩
      simp [mkSignature]
    rw [h1, h3]
    rfl

/-- Witness for C10_no_draft_after_submit at a concrete input: recipient 1
of stR1 (which holds draft rows) submits payload A; no draft row of the
pair survives. -/
theorem C10_no_draft_after_submit_witness :
    ∃ st' p, submit 1 3 1 storeEmpty [tfA] [] stR1 = SubmitOutcome.ok st' p ∧
      st'.text_fields.filter (fun tf => tf.recipient_id == 1 && tf.is_draft) = [] := by
  refine ⟨_, _, rfl, ?_⟩
  exact (C10_no_draft_after_submit 1 3 1 storeEmpty [tfA] [] stR1 _ _ rfl).1

/-- C7: when some signature of the aggregated final set has an in-range page
and references an image that embeds as neither PNG nor JPEG, signPDF cannot
return ok (no output artifact is written), and the triggering submission
ends in stampFailed: the document status, the signed artifact reference and
every assignment row (statuses, signed_at) are left exactly as before the
submission. -/
theorem C7_unsupported_image_aborts (uid now pathId : Nat) (store : ImgStore)
    (tfs : List TextFieldInput) (sgs : List SignatureInput) (st : DocState)
    (sg : Signature) (img : Image)
    (hassigned : isAssigned uid st.recipients = true)
    (hmem : sg ∈ finalSignatures (replaceWithFinal uid tfs sgs st))
    (hrange : pageInRange st.pdf sg.page_number = true)
    (himg : store sg.signature_image_path = some img)
    (hpng : img.pngOk = false) (hjpg : img.jpgOk = false) :
    (∀ cs, signPDF (replaceWithFinal uid tfs sgs st).original_ok store
        (replaceWithFinal uid tfs sgs st).pdf
        (finalTextFields (replaceWithFinal uid tfs sgs st))
        (finalSignatures (replaceWithFinal uid tfs sgs st)) ≠ Except.ok cs) ∧
    ∃ e, submit uid now pathId store tfs sgs st =
        SubmitOutcome.stampFailed (replaceWithFinal uid tfs sgs st) e ∧
      (replaceWithFinal uid tfs sgs st).status = st.status ∧
      (replaceWithFinal uid tfs sgs st).signed_file_path = st.signed_file_path ∧
      (replaceWithFinal uid tfs sgs st).recipients = st.recipients := by
  have hnok := signPDF_not_ok_of_bad_image (replaceWithFinal uid tfs sgs st).original_ok
      store (replaceWithFinal uid tfs sgs st).pdf
      (finalTextFields (replaceWithFinal uid tfs sgs st))
      (finalSignatures (replaceWithFinal uid tfs sgs st)) sg img hmem hrange himg hpng hjpg
  refine ⟨hnok, ?_⟩
  cases heq : signPDF (replaceWithFinal uid tfs sgs st).original_ok store
      (replaceWithFinal uid tfs sgs st).pdf
      (finalTextFields (replaceWithFinal uid tfs sgs st))
      (finalSignatures (replaceWithFinal uid tfs sgs st)) with
  | ok cs => exact absurd heq (hnok cs)
  | error e =>
    refine ⟨e, ?_, rfl, rfl, rfl⟩
    simp only [submit]
    rw [if_pos hassigned, heq]

/-- Image store in which every path resolves to a blob embeddable in
neither raster format. -/
def storeBadImg : ImgStore := fun _ => some { pngOk := false, jpgOk := false }

/-- Signature payload referencing the unembeddable image. -/
def sgBad : SignatureInput :=
  { page_number := 1, x_coordinate := some 10, y_coordinate := some 10,
    width := some 50, height := some 20, signature_image_path := "sig.bmp" }

/-- One-recipient document for the C7 witness. -/
def stC7 : DocState :=
  { owner := 0, status := DocStatus.sent_for_signing, original_ok := true,
    pdf := { pages := [100] }, signed_file_path := none,
    recipients :=
      [ { recipient_id := 1, status := RecStatus.pending, due_date := none,
          signed_at := none, revision_note := none } ],
    text_fields := [], signatures := [] }

/-- Witness for C7_unsupported_image_aborts at a concrete input: recipient 1
submits a signature whose image embeds in neither format; the submission
ends in stampFailed with all status fields untouched. -/
theorem C7_unsupported_image_aborts_witness :
    ∃ e, submit 1 5 9 storeBadImg [] [sgBad] stC7 =
        SubmitOutcome.stampFailed (replaceWithFinal 1 [] [sgBad] stC7) e ∧
      (replaceWithFinal 1 [] [sgBad] stC7).status = stC7.status ∧
      (replaceWithFinal 1 [] [sgBad] stC7).signed_file_path = stC7.signed_file_path ∧
      (replaceWithFinal 1 [] [sgBad] stC7).recipients = stC7.recipients :=
  (C7_unsupported_image_aborts 1 5 9 storeBadImg [] [sgBad] stC7
    (mkSignature 1 false sgBad) { pngOk := false, jpgOk := false }
    rfl (by decide) rfl rfl rfl rfl).2

/-- C8: for an annotation on a page of height H with stored values that
coerce to numbers, the stamping step places it at target-space origin
(x, H - y - height); an in-range annotation with any required value
non-numeric after coercion makes the step throw, and such an error makes
the whole signPDF call fail rather than skipping the annotation. -/
theorem C8_coordinate_mapping (pdf : Pdf) :
    (∀ (tf : TextField) (xv yv hv fv : ℚ),
      pageInRange pdf tf.page_number = true →
      tf.x_coordinate = some xv → tf.y_coordinate = some yv →
      tf.height = some hv → tf.font_size = some fv →
      stampTextField pdf tf = Except.ok
        [DrawCmd.text (tf.page_number - 1).toNat tf.text_content xv
          (pageHeight pdf tf.page_number - yv - hv) fv]) ∧
    (∀ tf : TextField, pageInRange pdf tf.page_number = true →
      tf.x_coordinate = none ∨ tf.y_coordinate = none ∨ tf.height = none ∨
        tf.font_size = none →
      stampTextField pdf tf = Except.error SignError.invalidTextField) ∧
    (∀ (store : ImgStore) (sg : Signature) (img : Image),
      pageInRange pdf sg.page_number = true →
      store sg.signature_image_path = some img →
      (img.pngOk || img.jpgOk) = true →
      (∀ xv yv wv hv : ℚ, sg.x_coordinate = some xv → sg.y_coordinate = some yv →
        sg.width = some wv → sg.height = some hv →
        stampSignature store pdf sg = Except.ok
          [DrawCmd.image (sg.page_number - 1).toNat sg.signature_image_path xv
            (pageHeight pdf sg.page_number - yv - hv) wv hv]) ∧
      ((sg.x_coordinate = none ∨ sg.y_coordinate = none ∨ sg.width = none ∨
          sg.height = none) →
        stampSignature store pdf sg = Except.error SignError.invalidSignature)) ∧
    (∀ (origOk : Bool) (store : ImgStore) (tfs : List TextField)
        (sgs : List Signature) (tf : TextField), tf ∈ tfs →
      pageInRange pdf tf.page_number = true →
      (tf.x_coordinate = none ∨ tf.y_coordinate = none ∨ tf.height = none ∨
        tf.font_size = none) →
      ∀ cs, signPDF origOk store pdf tfs sgs ≠ Except.ok cs) := by
  refine ⟨?_, ?_, ?_, ?_⟩
  · intro tf xv yv hv fv hrange hx hy hh hf
    unfold stampTextField
    rw [if_pos hrange, hx, hy, hh, hf]
    rfl
  · intro tf hrange hbad
    exact stampTextField_bad pdf tf hrange hbad
  · intro store sg img hrange himg hok
    constructor
    · intro xv yv wv hv hx hy hw hh
      unfold stampSignature
      rw [if_pos hrange]
      simp only [himg]
      rw [if_pos hok, hx, hy, hw, hh]
      rfl
    · intro hbad
      unfold stampSignature
      rw [if_pos hrange]
      simp only [himg]
      rw [if_pos hok]
      rcases hbad with hb | hb | hb | hb <;>
        rcases hx : sg.x_coordinate with _ | xv <;>
        rcases hy : sg.y_coordinate with _ | yv <;>
        rcases hw : sg.width with _ | wv <;>
        rcases hh : sg.height with _ | hv <;>
        simp_all [nsub]
  · intro origOk store tfs sgs tf hmem hrange hbad
    exact signPDF_not_ok_of_bad_text origOk store pdf tfs sgs tf hmem hrange hbad

/-- In-range text field with all-numeric stored values, for the C8
witness. -/
def tfC8 : TextField :=
  { recipient_id := 1, page_number := 1, x_coordinate := some 10,
    y_coordinate := some 20, width := some 30, height := some 5,
    font_size := some 12, text_content := "ok", is_draft := false }

/-- Witness for C8_coordinate_mapping at a concrete input: a text field at
top-left (10, 20) of height 5 on a page of height 100 is drawn at
target-space origin (10, 100 - 20 - 5). -/
theorem C8_coordinate_mapping_witness :
    stampTextField { pages := [100] } tfC8 =
      Except.ok [DrawCmd.text 0 "ok" 10 (100 - 20 - 5) 12] :=
  (C8_coordinate_mapping { pages := [100] }).1 tfC8 10 20 5 12 rfl rfl rfl rfl rfl

end EasySign
